import Mathlib

/-!
# Verification of the search-area workflow orchestrator

Shallow embedding of `src/frontend/app/search_area/page.tsx` (the map
analysis workflow orchestrator): coordinate normalization with JavaScript
truthiness, the mask compositor, the fade-in animation engine, the
workflow state machine, and the bounding-box geometry utilities.

Numbers handled by discrete code paths are modelled as rationals; the
trigonometric geometry (`calculateArea`) is modelled over the reals.
-/

namespace Sartech

/-! ## JavaScript value model

A JavaScript field that is either a number or absent (`undefined`) is
modelled as `Option ℚ`.  The source code resolves coordinate fields with
the `||` operator, whose semantics depend on truthiness: the number `0`
and `undefined` are both falsy. -/

/-- A JavaScript number-or-undefined value. -/
abbrev JSVal := Option ℚ

/-- JavaScript truthiness of a number-or-undefined value: `undefined`
and `0` are falsy, every other number is truthy. -/
def truthy : JSVal → Bool
  | some x => decide (x ≠ 0)
  | none => false

/-- The JavaScript `a || b` operator on number-or-undefined values. -/
def jsOr (a b : JSVal) : JSVal := if truthy a then a else b

/-- JavaScript `a < c` where `a` may be `undefined`: comparing
`undefined` with a number is always false (NaN comparison). -/
def jsLt (a : JSVal) (c : ℚ) : Bool :=
  match a with
  | some x => decide (x < c)
  | none => false

/-- JavaScript `a > c` where `a` may be `undefined`. -/
def jsGt (a : JSVal) (c : ℚ) : Bool :=
  match a with
  | some x => decide (c < x)
  | none => false

/-- A raw backend coordinate object, with every field name the source
ever reads (`x`, `y`, `lat`, `lng`, `lon`, `latitude`, `longitude`,
`intensity`); absent fields are `none`. -/
structure RawCoord where
  x : JSVal := none
  y : JSVal := none
  lat : JSVal := none
  lng : JSVal := none
  lon : JSVal := none
  latitude : JSVal := none
  longitude : JSVal := none
  intensity : JSVal := none
deriving DecidableEq, Repr

/-! ## Heatmap point normalization (`displayHeatmap`, page.tsx 917-932) -/

/-- `const lat = coord.y || coord.lat` (page.tsx line 919). -/
def heatLat (c : RawCoord) : JSVal := jsOr c.y c.lat

/-- `const lng = coord.x || coord.lng` (page.tsx line 920). -/
def heatLng (c : RawCoord) : JSVal := jsOr c.x c.lng

/-- The out-of-range test
`lat < -90 || lat > 90 || lng < -180 || lng > 180` (page.tsx line 923),
with JavaScript comparison semantics for possibly-undefined values. -/
def outOfRange (lat lng : JSVal) : Bool :=
  jsLt lat (-90) || jsGt lat 90 || jsLt lng (-180) || jsGt lng 180

/-- A heatmap point handed to the renderer: resolved position plus
weight (`coord.intensity || 1`). -/
structure HeatPoint where
  lat : JSVal
  lng : JSVal
  weight : JSVal
deriving DecidableEq, Repr

/-- One step of the `heatmapData.coordinates.map(...)` body in
`displayHeatmap` (page.tsx 917-932): resolve the coordinate fields,
return `none` (dropped) when the resolved pair fails the range test,
otherwise the rendered point. -/
def heatPoint (c : RawCoord) : Option HeatPoint :=
  let lat := heatLat c
  let lng := heatLng c
  if outOfRange lat lng then none
  else some ⟨lat, lng, jsOr c.intensity (some 1)⟩

/-- `heatmapData.coordinates.map(...).filter(point => point !== null)`:
the full list of rendered heatmap points. -/
def displayHeatmapPoints (coords : List RawCoord) : List HeatPoint :=
  (coords.map heatPoint).filterMap id

/-! ## Flight-path coordinate handling
(`generateFlightPath` 856-859 and `displayFlightPath` 983-994) -/

/-- A formatted `{x, y}` coordinate sent to the flight-plan endpoint. -/
structure XYCoord where
  x : JSVal
  y : JSVal
deriving DecidableEq, Repr

/-- `{ x: coord.x || coord.lng || coord.longitude,
y: coord.y || coord.lat || coord.latitude }` (page.tsx 856-859). -/
def formatCoordinate (c : RawCoord) : XYCoord :=
  { x := jsOr (jsOr c.x c.lng) c.longitude
    y := jsOr (jsOr c.y c.lat) c.latitude }

/-- `const lat = waypoint.y || waypoint.lat` (page.tsx line 984). -/
def flightLat (w : RawCoord) : JSVal := jsOr w.y w.lat

/-- `const lng = waypoint.x || waypoint.lng || waypoint.lon`
(page.tsx line 985). -/
def flightLng (w : RawCoord) : JSVal := jsOr (jsOr w.x w.lng) w.lon

/-- One step of the `flight_path.map(...)` body in `displayFlightPath`:
resolve, drop when out of range, otherwise keep the `{lat, lng}` pair. -/
def flightCoord (w : RawCoord) : Option (JSVal × JSVal) :=
  let lat := flightLat w
  let lng := flightLng w
  if outOfRange lat lng then none else some (lat, lng)

/-- `flight_path.map(...).filter(coord => coord !== null)`. -/
def pathCoordinates (fp : List RawCoord) : List (JSVal × JSVal) :=
  (fp.map flightCoord).filterMap id

/-- A heatmap coordinate supplied in `{x, y}` spelling. -/
def mkXY (a b : ℚ) : RawCoord := { x := some a, y := some b }

/-- The same coordinate supplied in `{lng, lat}` spelling. -/
def mkLngLat (a b : ℚ) : RawCoord := { lng := some a, lat := some b }

/-! ## Mask compositor (`createMaskOverlay`, page.tsx 584-694)

The source builds four `google.maps.Rectangle`s from the bounding box and
the current visible map extent (`mapInstance.getBounds()`), each with
`fillOpacity: 0.5`, `strokeWeight: 0`, `clickable: false`,
`zIndex: 1000`. -/

/-- A north/south/east/west rectangle in degrees. -/
structure Bounds where
  north : ℚ
  south : ℚ
  east : ℚ
  west : ℚ
deriving DecidableEq, Repr

/-- A mask rectangle with the rendering options the source sets. -/
structure MaskRect where
  bounds : Bounds
  fillOpacity : ℚ
  strokeWeight : ℚ
  clickable : Bool
  zIndex : ℤ
deriving DecidableEq, Repr

/-- A `google.maps.Rectangle` with the fixed style used by
`createMaskOverlay`. -/
def maskRect (b : Bounds) : MaskRect :=
  { bounds := b, fillOpacity := 1/2, strokeWeight := 0,
    clickable := false, zIndex := 1000 }

/-- The four rectangles created by `createMaskOverlay` (page.tsx
617-683) from the bounding box and the visible extent (`ne`/`sw` of the
map bounds): top, bottom, left, right, in source order. -/
def createMaskOverlay (boundingBox visible : Bounds) : List MaskRect :=
  [ maskRect ⟨visible.north, boundingBox.north, visible.east, visible.west⟩,
    maskRect ⟨boundingBox.south, visible.south, visible.east, visible.west⟩,
    maskRect ⟨boundingBox.north, boundingBox.south, boundingBox.west, visible.west⟩,
    maskRect ⟨boundingBox.north, boundingBox.south, visible.east, boundingBox.east⟩ ]

/-- Membership of a (lat, lng) point in a rectangle, boundary included:
this is the region a rendered rectangle covers. -/
def inClosed (p : ℚ × ℚ) (b : Bounds) : Prop :=
  b.south ≤ p.1 ∧ p.1 ≤ b.north ∧ b.west ≤ p.2 ∧ p.2 ≤ b.east

/-- Membership in the interior of a rectangle (boundary excluded). -/
def inInterior (p : ℚ × ℚ) (b : Bounds) : Prop :=
  b.south < p.1 ∧ p.1 < b.north ∧ b.west < p.2 ∧ p.2 < b.east

instance (p : ℚ × ℚ) (b : Bounds) : Decidable (inClosed p b) := by
  unfold inClosed; infer_instance

instance (p : ℚ × ℚ) (b : Bounds) : Decidable (inInterior p b) := by
  unfold inInterior; infer_instance

/-! ## Animation engine (page.tsx 436-581)

`startAnimation` drives a timer-chained fade-in over the available
layers.  The mutable record `animationRef.current = { active, timeouts }`
is embedded as part of an explicit state, and each scheduled callback
(`fadeIn` closures and `animateNextLayer`) as an event.  Firing an event
corresponds to the browser running a queued timer callback; the model
runs an arbitrary event against a state, which covers both callbacks
still in `pending` and callbacks that had already been dequeued. -/

/-- The canonical layer order (page.tsx line 438). -/
def layerOrder : List String := ["water", "sparse_forest", "dense_forest", "roads"]

/-- `const targetOpacity = 0.85` (page.tsx line 499). -/
def targetOpacity : ℚ := 85/100

/-- `const fadeStep = 0.03` (page.tsx line 500). -/
def fadeStep : ℚ := 3/100

/-- A scheduled timer callback of an animation run.
`fade idx op` is the `fadeIn` closure for `availableLayers[idx]` whose
captured `opacity` variable currently holds `op`; `next idx` is
`animateNextLayer` with the shared `currentStep` variable at `idx`. -/
inductive AnimEvent where
  | fade (idx : ℕ) (opacity : ℚ)
  | next (idx : ℕ)
deriving DecidableEq, Repr

/-- The animation-relevant state: the `animationRef` record
(`active`, `timeouts`), the tracked `animatedLayers` (keys plus each
overlay's opacity), and the React mirrors the callbacks write. -/
structure AnimState where
  active : Bool
  pending : List AnimEvent
  layers : List String
  opacity : String → ℚ
  animationActive : Bool
  currentAnimationStep : ℕ
  animationProgress : ℚ
  terrainAnalysisComplete : Bool

/-- `layerOrder.filter(layer => animatedLayers[layer])`
(page.tsx line 439). -/
def availableLayers (s : AnimState) : List String :=
  layerOrder.filter (fun l => decide (l ∈ s.layers))

/-- `overlay.setOpacity(v)` for the named layer. -/
def setOpacity (s : AnimState) (name : String) (v : ℚ) : AnimState :=
  { s with opacity := fun n => if n = name then v else s.opacity n }

/-- `setTimeout(cb, delay)` plus
`animationRef.current.timeouts.push(timeout)`. -/
def schedule (s : AnimState) (e : AnimEvent) : AnimState :=
  { s with pending := s.pending ++ [e] }

/-- The body of the `fadeIn` closure (page.tsx 503-520): re-check the
active flag at entry; otherwise bump the captured opacity, clamp at the
target, write it to the overlay, and schedule either the next layer or
the next fade tick. -/
def fadeTick (s : AnimState) (idx : ℕ) (op : ℚ) : AnimState :=
  if s.active then
    let op' := op + fadeStep
    let s' := match (availableLayers s).get? idx with
      | some name => setOpacity s name (min op' targetOpacity)
      | none => s
    if targetOpacity ≤ op' then schedule s' (.next (idx + 1))
    else schedule s' (.fade idx op')
  else s

/-- The body of `animateNextLayer` (page.tsx 468-529): when inactive or
past the last layer, fire the completion signal only if still active;
otherwise update the step/progress mirrors and run the first fade tick
synchronously (the source calls `fadeIn()` directly); a missing overlay
is skipped by scheduling the next step. -/
def runEvent (s : AnimState) (e : AnimEvent) : AnimState :=
  match e with
  | .fade idx op => fadeTick s idx op
  | .next idx =>
    if s.active = false ∨ (availableLayers s).length ≤ idx then
      if s.active then
        { s with animationActive := false, active := false,
                 terrainAnalysisComplete := true }
      else s
    else
      match (availableLayers s).get? idx with
      | some _ =>
        let s' := { s with currentAnimationStep := idx + 1,
                           animationProgress :=
                             ((idx : ℚ) + 1) / ((availableLayers s).length : ℚ) * 100 }
        fadeTick s' idx 0
      | none => schedule s (.next (idx + 1))

/-- Run a sequence of timer callbacks in order. -/
def runEvents (s : AnimState) (evs : List AnimEvent) : AnimState :=
  evs.foldl runEvent s

/-- `stopAnimation` (page.tsx 537-555): clear every pending timeout,
drop the active flag and the React mirrors, then set every tracked
layer's opacity to 0.7. -/
def stopAnimation (s : AnimState) : AnimState :=
  { s with pending := [],
           active := false,
           animationActive := false,
           currentAnimationStep := 0,
           opacity := fun n => if n ∈ s.layers then 7/10 else s.opacity n }

/-- `startAnimation` (page.tsx 437-534): no-op when no layer is
available; otherwise clear stale timeouts, raise the flags, reset every
candidate layer's opacity to 0 and schedule the first
`animateNextLayer`. -/
def startAnimation (s : AnimState) : AnimState :=
  if (availableLayers s).isEmpty then s
  else
    let s1 := { s with pending := [], animationActive := true,
                       currentAnimationStep := 0, animationProgress := 0,
                       active := true }
    let s2 := (availableLayers s).foldl (fun acc name => setOpacity acc name 0) s1
    schedule s2 (.next 0)

/-! ## Workflow state machine (page.tsx 38-49, 792-1033)

The stage advance handlers `generateHeatmapAndFlightPlan` and
`generateFlightPath` are async functions whose only suspension point is
one `fetch`; each is embedded as a function of the pre-state and the
fetch outcome.  A non-OK HTTP response and a transport error both end in
the same `catch` block, so they are one `fail` outcome. -/

/-- The workflow stage enum (page.tsx 38-40). -/
inductive WorkflowStep where
  | segmentation | heatmap | flightpath | complete
deriving DecidableEq, Repr

/-- The `currentView` enum (page.tsx 45-47). -/
inductive ViewKind where
  | segmentation | heatmap | flightpath
deriving DecidableEq, Repr

/-- The parsed `heatmap_data` object; its `coordinates` field may be
absent. -/
structure HeatmapData where
  coordinates : Option (List RawCoord)
deriving DecidableEq, Repr

/-- The parsed flight-plan response: `flight_path` may be absent, an
empty list, or a list of waypoints. -/
structure FlightPlanData where
  flight_path : Option (List RawCoord)
  num_hotspots : ℕ
deriving DecidableEq, Repr

/-- The parsed `/workflow` response body. -/
structure WorkflowResponse where
  heatmap_data : Option HeatmapData
deriving DecidableEq, Repr

/-- Outcome of one `fetch`: `fail` covers a transport error and a
non-OK HTTP status (both throw into the `catch` block); `ok` carries the
parsed JSON body. -/
inductive FetchResult (α : Type) where
  | fail
  | ok (data : α)
deriving DecidableEq, Repr

/-- An element of the flight-path overlay created by
`displayFlightPath`: the polyline or a waypoint marker. -/
inductive FlightOverlayElem where
  | polyline (path : List (JSVal × JSVal))
  | marker (position : JSVal × JSVal)
deriving DecidableEq, Repr

/-- The workflow-relevant component state.  Renderer handles are
represented by the data used to build them; `mapInstance` is whether the
map has loaded; `animatedLayers`/`maskOverlay` only note presence and
attachment since these handlers never touch them. -/
structure WorkflowState where
  mapInstance : Bool
  boundingBox : Option Bounds
  loading : Bool
  workflowStep : WorkflowStep
  heatmapData : Option HeatmapData
  heatmapOverlay : Option (List HeatPoint)
  flightPathData : Option FlightPlanData
  flightPathOverlay : Option (List FlightOverlayElem)
  currentView : ViewKind
  heatmapComplete : Bool
  animatedLayers : List (String × Bool)
  maskOverlay : Option Bool
deriving DecidableEq, Repr

/-- `displayHeatmap` (page.tsx 902-959): bail out when the map or the
`coordinates` field is missing; otherwise detach any previous heatmap
layer and build a new one from the normalized points. -/
def displayHeatmap (s : WorkflowState) (hd : HeatmapData) : WorkflowState :=
  match s.mapInstance, hd.coordinates with
  | true, some coords =>
      { s with heatmapOverlay := some (displayHeatmapPoints coords) }
  | _, _ => s

/-- `displayFlightPath` (page.tsx 962-1033): bail out when the map or
`flight_path` is missing; normalize the waypoints; when none survive the
range filter, return without creating an overlay; otherwise build the
polyline plus one marker per waypoint. -/
def displayFlightPath (s : WorkflowState) (data : FlightPlanData) : WorkflowState :=
  match s.mapInstance, data.flight_path with
  | true, some fp =>
    let coords := pathCoordinates fp
    if coords.length = 0 then s
    else
      let elems : List FlightOverlayElem :=
        FlightOverlayElem.polyline coords ::
          coords.map (fun c => FlightOverlayElem.marker c)
      { s with flightPathOverlay := some elems }
  | _, _ => s

/-- `generateHeatmapAndFlightPlan` (page.tsx 793-840): guard on the
bounding box; set stage `heatmap` and the loading flag; on a failed
fetch the `catch` block resets the stage to `segmentation`; on success
store `heatmap_data` and, when present, display it, switch the view and
mark the heatmap complete; `finally` clears the loading flag. -/
def generateHeatmapAndFlightPlan (s : WorkflowState)
    (resp : FetchResult WorkflowResponse) : WorkflowState :=
  match s.boundingBox with
  | none => s
  | some _ =>
    let s1 := { s with workflowStep := .heatmap, loading := true }
    match resp with
    | .fail => { s1 with workflowStep := .segmentation, loading := false }
    | .ok data =>
      let s2 := { s1 with heatmapData := data.heatmap_data }
      match data.heatmap_data with
      | some hd =>
        let s3 := displayHeatmap s2 hd
        { s3 with currentView := .heatmap, heatmapComplete := true,
                  workflowStep := .heatmap, loading := false }
      | none => { s2 with loading := false }

/-- `generateFlightPath` (page.tsx 843-900): guard on the bounding box
and the heatmap data; set stage `flightpath` and the loading flag;
reading `heatmapData.coordinates.map` with `coordinates` absent throws
and is caught (stage back to `heatmap`); a failed fetch likewise; on
success store the response, and only when `flight_path` is a non-empty
list display it, switch the view and advance to `complete` — the
empty-list branch only logs and alerts; `finally` clears the loading
flag. -/
def generateFlightPath (s : WorkflowState)
    (resp : FetchResult FlightPlanData) : WorkflowState :=
  match s.boundingBox, s.heatmapData with
  | some _, some hd =>
    let s1 := { s with workflowStep := .flightpath, loading := true }
    match hd.coordinates with
    | none => { s1 with workflowStep := .heatmap, loading := false }
    | some _ =>
      match resp with
      | .fail => { s1 with workflowStep := .heatmap, loading := false }
      | .ok data =>
        let s2 := { s1 with flightPathData := some data }
        match data.flight_path with
        | some fp =>
          if fp.length > 0 then
            let s3 := displayFlightPath s2 data
            { s3 with currentView := .flightpath, workflowStep := .complete,
                      loading := false }
          else { s2 with loading := false }
        | none => { s2 with loading := false }
  | _, _ => s

/-! ## View toggling (page.tsx 1035-1127)

Overlay visibility state for the view-switch handlers.  Each overlay
records presence and whether it is attached to the map (`setMap(map)` vs
`setMap(null)`); segmentation layers are toggled uniformly by a
`forEach` over `animatedLayers`. -/

/-- Visibility state seen by the view-switch handlers. -/
structure ViewState where
  mapInstance : Bool
  animatedLayers : List (String × Bool)
  heatmapOverlay : Option Bool
  flightPathOverlay : Option Bool
  maskOverlay : Option Bool
  currentView : ViewKind
deriving DecidableEq, Repr

/-- `Object.values(animatedLayers).forEach(o => o.setMap(m))`: attach or
detach every segmentation layer. -/
def setAllSeg (ls : List (String × Bool)) (v : Bool) : List (String × Bool) :=
  ls.map (fun l => (l.1, v))

/-- `switchToSegmentationView` (page.tsx 1035-1046): hide the heatmap,
attach the segmentation layers to the map (`setMap(mapInstance)`), set
the view.  It does not touch the flight path. -/
def switchToSegmentationView (s : ViewState) : ViewState :=
  let s1 := match s.heatmapOverlay with
    | some _ => { s with heatmapOverlay := some false }
    | none => s
  { s1 with animatedLayers := setAllSeg s1.animatedLayers s1.mapInstance,
            currentView := .segmentation }

/-- `switchToHeatmapView` (page.tsx 1048-1060): hide the segmentation
layers, show the heatmap when it and the map exist, set the view.  It
does not touch the flight path. -/
def switchToHeatmapView (s : ViewState) : ViewState :=
  let s1 := { s with animatedLayers := setAllSeg s.animatedLayers false }
  let s2 := match s1.heatmapOverlay, s1.mapInstance with
    | some _, true => { s1 with heatmapOverlay := some true }
    | _, _ => s1
  { s2 with currentView := .heatmap }

/-- `switchToFlightPathView` (page.tsx 1062-1083): hide the segmentation
layers and the heatmap, show the flight path when it and the map exist,
set the view. -/
def switchToFlightPathView (s : ViewState) : ViewState :=
  let s1 := { s with animatedLayers := setAllSeg s.animatedLayers false }
  let s2 := match s1.heatmapOverlay with
    | some _ => { s1 with heatmapOverlay := some false }
    | none => s1
  let s3 := match s2.flightPathOverlay, s2.mapInstance with
    | some _, true => { s2 with flightPathOverlay := some true }
    | _, _ => s2
  { s3 with currentView := .flightpath }

/-- `switchToSegmentationViewUpdated` (page.tsx 1086-1104): hide the
heatmap and the flight path, attach the segmentation layers, set the
view. -/
def switchToSegmentationViewUpdated (s : ViewState) : ViewState :=
  let s1 := match s.heatmapOverlay with
    | some _ => { s with heatmapOverlay := some false }
    | none => s
  let s2 := match s1.flightPathOverlay with
    | some _ => { s1 with flightPathOverlay := some false }
    | none => s1
  { s2 with animatedLayers := setAllSeg s2.animatedLayers s2.mapInstance,
            currentView := .segmentation }

/-- `switchToHeatmapViewUpdated` (page.tsx 1106-1127): hide the
segmentation layers and the flight path, show the heatmap when it and
the map exist, set the view. -/
def switchToHeatmapViewUpdated (s : ViewState) : ViewState :=
  let s1 := { s with animatedLayers := setAllSeg s.animatedLayers false }
  let s2 := match s1.flightPathOverlay with
    | some _ => { s1 with flightPathOverlay := some false }
    | none => s1
  let s3 := match s2.heatmapOverlay, s2.mapInstance with
    | some _, true => { s2 with heatmapOverlay := some true }
    | _, _ => s2
  { s3 with currentView := .heatmap }

/-! ## Geometry utilities (page.tsx 68-89 and 700-716)

`calculateArea` and the centre-point bounding box use `Math.sin`,
`Math.cos`, `Math.atan2` and `Math.sqrt` on IEEE doubles; they are
modelled over the reals.  `Math.atan2` is total on the reals; the piece
relevant here (both arguments non-negative, second positive) agrees with
`Real.arctan` of the quotient. -/

noncomputable section Geometry

/-- A bounding box with real-valued degree coordinates. -/
structure BoundingBox where
  north : ℝ
  south : ℝ
  east : ℝ
  west : ℝ

/-- `Math.atan2(y, x)`: the angle of the point `(x, y)`, by cases on the
quadrant exactly as the JavaScript specification defines it for finite
inputs. -/
def jsAtan2 (y x : ℝ) : ℝ :=
  if 0 < x then Real.arctan (y / x)
  else if x < 0 then
    (if 0 ≤ y then Real.arctan (y / x) + Real.pi
     else Real.arctan (y / x) - Real.pi)
  else
    (if 0 < y then Real.pi / 2 else if y < 0 then -(Real.pi / 2) else 0)

/-- `const lat1 = (bounds.north * Math.PI) / 180` (page.tsx line 702). -/
def lat1 (b : BoundingBox) : ℝ := b.north * Real.pi / 180

/-- `const lat2 = (bounds.south * Math.PI) / 180` (page.tsx line 703). -/
def lat2 (b : BoundingBox) : ℝ := b.south * Real.pi / 180

/-- `const deltaLat = ((bounds.south - bounds.north) * Math.PI) / 180`
(page.tsx line 704). -/
def deltaLat (b : BoundingBox) : ℝ := (b.south - b.north) * Real.pi / 180

/-- `const deltaLon = ((bounds.east - bounds.west) * Math.PI) / 180`
(page.tsx line 705). -/
def deltaLon (b : BoundingBox) : ℝ := (b.east - b.west) * Real.pi / 180

/-- The local `a` of `calculateArea` (page.tsx 707-712). -/
def haversineA (b : BoundingBox) : ℝ :=
  Real.sin (deltaLat b / 2) * Real.sin (deltaLat b / 2) +
    Real.cos (lat1 b) * Real.cos (lat2 b) *
      Real.sin (deltaLon b / 2) * Real.sin (deltaLon b / 2)

/-- The local `c = 2 * Math.atan2(Math.sqrt(a), Math.sqrt(1 - a))`
(page.tsx line 713). -/
def haversineC (b : BoundingBox) : ℝ :=
  2 * jsAtan2 (Real.sqrt (haversineA b)) (Real.sqrt (1 - haversineA b))

/-- `calculateArea` (page.tsx 700-716):
`R * c * Math.abs((bounds.east - bounds.west) / 360) * 40075` with
`R = 6371`. -/
def calculateArea (b : BoundingBox) : ℝ :=
  6371 * haversineC b * |(b.east - b.west) / 360| * 40075

/-- The 10 km × 10 km bounding box built around a URL centre point
(page.tsx 68-82): `latOffset = 10 / (2 * 111)` and
`lngOffset = 10 / (2 * 111 * Math.cos((lat * Math.PI) / 180))`. -/
def centerBoundingBox (lat lng : ℝ) : BoundingBox :=
  let latOffset : ℝ := 10 / (2 * 111)
  let lngOffset : ℝ := 10 / (2 * 111 * Real.cos (lat * Real.pi / 180))
  { north := lat + latOffset, south := lat - latOffset,
    east := lng + lngOffset, west := lng - lngOffset }

/-- A valid box from the equator to 60°N spanning half the globe. -/
def c5BoxA : BoundingBox := { north := 60, south := 0, east := 180, west := 0 }

/-- The same box enlarged northwards to the pole: it contains `c5BoxA`. -/
def c5BoxB : BoundingBox := { north := 90, south := 0, east := 180, west := 0 }

end Geometry

/-! ## Concrete instances used by witnesses and counterexamples -/

/-- The default Princeton bounding box (page.tsx 103-108), as rationals. -/
def princetonBox : Bounds :=
  { north := 40.3622, south := 40.3158, east := -74.6252, west := -74.6958 }

/-- A component state in which a heatmap has been generated
(the preconditions of `generateFlightPath` hold). -/
def c1State : WorkflowState :=
  { mapInstance := true
    boundingBox := some princetonBox
    loading := false
    workflowStep := .heatmap
    heatmapData := some ⟨some []⟩
    heatmapOverlay := some []
    flightPathData := none
    flightPathOverlay := none
    currentView := .heatmap
    heatmapComplete := true
    animatedLayers := [("water", true), ("roads", true)]
    maskOverlay := some true }

/-- A flight-plan response whose `flight_path` is the empty list. -/
def c1EmptyResponse : FlightPlanData := { flight_path := some [], num_hotspots := 0 }

/-- A component state about to request the heatmap: segmentation done,
segmentation overlays on the map, no heatmap yet. -/
def c3State : WorkflowState :=
  { mapInstance := true
    boundingBox := some princetonBox
    loading := false
    workflowStep := .segmentation
    heatmapData := none
    heatmapOverlay := none
    flightPathData := none
    flightPathOverlay := none
    currentView := .segmentation
    heatmapComplete := false
    animatedLayers := [("water", true), ("roads", true)]
    maskOverlay := some true }

/-- A complete-stage visibility state in which the flight path is the
visible overlay (as after `switchToFlightPathView`). -/
def c2State : ViewState :=
  { mapInstance := true
    animatedLayers := [("water", false), ("roads", false)]
    heatmapOverlay := some false
    flightPathOverlay := some true
    maskOverlay := some true
    currentView := .flightpath }

/-- A mid-animation state: the fade of the first layer is pending and
the second layer's fade-in has not started. -/
def c10State : AnimState :=
  { active := true
    pending := [AnimEvent.fade 0 (3/100)]
    layers := ["water", "roads"]
    opacity := fun _ => 0
    animationActive := true
    currentAnimationStep := 1
    animationProgress := 25
    terrainAnalysisComplete := false }

/-! ## Theorems -/

/-- C9: coordinate-field fallback uses JavaScript truthiness: a field
whose value is exactly 0 is treated as absent (the next field in the
`||` chain is used), in the heatmap resolver, the flight-plan request
formatter and the flight-path display resolver alike; and when every
fallback field is absent the resolved `undefined` passes the
out-of-range check (both comparisons are false), so `heatPoint` hands
the point to the renderer instead of dropping it. -/
theorem c9_truthiness_fallback :
    (∀ c : RawCoord, c.x = some 0 → heatLng c = c.lng) ∧
    (∀ c : RawCoord, c.y = some 0 → heatLat c = c.lat) ∧
    (∀ c : RawCoord, c.x = some 0 → c.lng = some 0 →
      (formatCoordinate c).x = c.longitude ∧ flightLng c = c.lon) ∧
    (∀ c : RawCoord, c.y = none → c.lat = none → c.x = none → c.lng = none →
      heatPoint c = some ⟨none, none, jsOr c.intensity (some 1)⟩) := by
  refine ⟨?_, ?_, ?_, ?_⟩
  · intro c hx; simp [heatLng, hx, jsOr, truthy]
  · intro c hy; simp [heatLat, hy, jsOr, truthy]
  · intro c hx hlng
    constructor
    · simp [formatCoordinate, hx, hlng, jsOr, truthy]
    · simp [flightLng, hx, hlng, jsOr, truthy]
  · intro c hy hlat hx hlng
    simp [heatPoint, heatLat, heatLng, hy, hlat, hx, hlng, jsOr, truthy,
      outOfRange, jsLt, jsGt]

/-- C9 witness: a concrete zero-valued field falls through to the next
name, and a concrete point with no coordinate field at all is kept. -/
theorem c9_witness :
    heatLng { x := some 0, lng := some 5 } = some 5 ∧
    heatPoint { intensity := some 2 } = some ⟨none, none, some 2⟩ := by
  constructor
  · exact c9_truthiness_fallback.1 { x := some 0, lng := some 5 } rfl
  · exact c9_truthiness_fallback.2.2.2 { intensity := some 2 } rfl rfl rfl rfl

/-- C4 counterexample: the same numeric pair supplied as `{x, y}` and as
`{lng, lat}` does not always render identically: with `x = lng = 0` the
`{x, y}` spelling resolves `lng` to `undefined` while the `{lng, lat}`
spelling resolves it to `0`, and both points are still handed to the
renderer. -/
theorem c4_counterexample :
    heatPoint (mkXY 0 5) ≠ heatPoint (mkLngLat 0 5) ∧
    heatPoint (mkXY 0 5) ≠ none ∧ heatPoint (mkLngLat 0 5) ≠ none := by
  refine ⟨?_, ?_, ?_⟩ <;> decide

/-- C4 (amended): for coordinate values that are both non-zero, the
`{x, y}` and `{lng, lat}` spellings of the same point resolve to the
identical rendered position; and any point whose resolved coordinates
are numbers outside `[-90, 90] × [-180, 180]` is dropped. -/
theorem c4_roundtrip_amended :
    (∀ a b : ℚ, a ≠ 0 → b ≠ 0 →
      heatPoint (mkXY a b) = heatPoint (mkLngLat a b)) ∧
    (∀ (c : RawCoord) (la lg : ℚ), heatLat c = some la → heatLng c = some lg →
      la < -90 ∨ 90 < la ∨ lg < -180 ∨ 180 < lg → heatPoint c = none) := by
  constructor
  · intro a b ha hb
    simp [heatPoint, mkXY, mkLngLat, heatLat, heatLng, jsOr, truthy, ha, hb]
  · intro c la lg hla hlg hout
    simp only [heatPoint, hla, hlg, outOfRange, jsLt, jsGt]
    rcases hout with h | h | h | h <;> simp [h]

/-- C4 witness: a concrete in-range non-zero pair renders identically in
both spellings, and a concrete out-of-range point is dropped. -/
theorem c4_witness :
    heatPoint (mkXY 3 4) = heatPoint (mkLngLat 3 4) ∧
    heatPoint { lat := some 100, lng := some 5 } = none := by
  constructor
  · exact c4_roundtrip_amended.1 3 4 (by norm_num) (by norm_num)
  · exact c4_roundtrip_amended.2 { lat := some 100, lng := some 5 } 100 5
      rfl rfl (by norm_num)

/-- C1 counterexample: on a response with `flight_path: []`,
`generateFlightPath` leaves the workflow stage at `flightpath` — it does
not end at `heatmap` as claimed (only thrown errors reach the `catch`
block that resets the stage; the empty-list branch merely alerts). -/
theorem c1_counterexample :
    (generateFlightPath c1State (.ok c1EmptyResponse)).workflowStep ≠
      WorkflowStep.heatmap ∧
    (generateFlightPath c1State (.ok c1EmptyResponse)).workflowStep =
      WorkflowStep.flightpath := by
  constructor <;> decide

/-- C1 (amended): a flight-plan response whose `flight_path` field is an
empty list is treated as a failure to the extent that no flight-path
overlay is created and the stage does not advance to `complete`, and the
loading flag is cleared; but the workflow stage ends at `flightpath`
(set before the request), not `heatmap`; the empty response is still
stored in `flightPathData`. -/
theorem c1_emptyPath_amended (s : WorkflowState) (bb : Bounds)
    (hd : HeatmapData) (cs : List RawCoord) (data : FlightPlanData)
    (hbb : s.boundingBox = some bb) (hhd : s.heatmapData = some hd)
    (hcs : hd.coordinates = some cs) (hfp : data.flight_path = some []) :
    (generateFlightPath s (.ok data)).workflowStep = WorkflowStep.flightpath ∧
    (generateFlightPath s (.ok data)).workflowStep ≠ WorkflowStep.complete ∧
    (generateFlightPath s (.ok data)).flightPathOverlay = s.flightPathOverlay ∧
    (generateFlightPath s (.ok data)).loading = false ∧
    (generateFlightPath s (.ok data)).flightPathData = some data := by
  simp [generateFlightPath, hbb, hhd, hcs, hfp]

/-- C1 witness: the amended statement at a concrete post-heatmap state
and the concrete empty-list response. -/
theorem c1_witness :
    (generateFlightPath c1State (.ok c1EmptyResponse)).workflowStep =
      WorkflowStep.flightpath ∧
    (generateFlightPath c1State (.ok c1EmptyResponse)).workflowStep ≠
      WorkflowStep.complete ∧
    (generateFlightPath c1State (.ok c1EmptyResponse)).flightPathOverlay =
      c1State.flightPathOverlay ∧
    (generateFlightPath c1State (.ok c1EmptyResponse)).loading = false ∧
    (generateFlightPath c1State (.ok c1EmptyResponse)).flightPathData =
      some c1EmptyResponse :=
  c1_emptyPath_amended c1State princetonBox ⟨some []⟩ [] c1EmptyResponse
    rfl rfl rfl rfl

/-- C3: when the heatmap request fails (non-OK response or transport
error — both throw into the `catch` block), `generateHeatmapAndFlightPlan`
ends with the workflow stage at `segmentation`, the loading flag false,
and every overlay field and the stored heatmap data unchanged. -/
theorem c3_heatmapFailure (s : WorkflowState) (bb : Bounds)
    (hbb : s.boundingBox = some bb) :
    (generateHeatmapAndFlightPlan s .fail).workflowStep =
      WorkflowStep.segmentation ∧
    (generateHeatmapAndFlightPlan s .fail).loading = false ∧
    (generateHeatmapAndFlightPlan s .fail).heatmapOverlay = s.heatmapOverlay ∧
    (generateHeatmapAndFlightPlan s .fail).flightPathOverlay =
      s.flightPathOverlay ∧
    (generateHeatmapAndFlightPlan s .fail).animatedLayers = s.animatedLayers ∧
    (generateHeatmapAndFlightPlan s .fail).maskOverlay = s.maskOverlay ∧
    (generateHeatmapAndFlightPlan s .fail).heatmapData = s.heatmapData := by
  simp [generateHeatmapAndFlightPlan, hbb]

/-- C3 witness: the failure path at a concrete pre-request state. -/
theorem c3_witness :
    (generateHeatmapAndFlightPlan c3State .fail).workflowStep =
      WorkflowStep.segmentation ∧
    (generateHeatmapAndFlightPlan c3State .fail).loading = false ∧
    (generateHeatmapAndFlightPlan c3State .fail).heatmapOverlay =
      c3State.heatmapOverlay ∧
    (generateHeatmapAndFlightPlan c3State .fail).flightPathOverlay =
      c3State.flightPathOverlay ∧
    (generateHeatmapAndFlightPlan c3State .fail).animatedLayers =
      c3State.animatedLayers ∧
    (generateHeatmapAndFlightPlan c3State .fail).maskOverlay =
      c3State.maskOverlay ∧
    (generateHeatmapAndFlightPlan c3State .fail).heatmapData =
      c3State.heatmapData :=
  c3_heatmapFailure c3State princetonBox rfl

/-- C2 counterexample: in the complete stage, starting from a state in
which the flight path is visible, `switchToHeatmapView` (the handler
wired to the complete-stage arrow control) shows the heatmap but leaves
the flight-path overlay on the map: two stages' overlays are visible at
once, falsifying mutually exclusive visibility. -/
theorem c2_counterexample :
    (switchToHeatmapView c2State).currentView = ViewKind.heatmap ∧
    (switchToHeatmapView c2State).heatmapOverlay = some true ∧
    (switchToHeatmapView c2State).flightPathOverlay = some true := by
  refine ⟨?_, ?_, ?_⟩ <;> decide

/-- C2 (amended): the handler `switchToHeatmapViewUpdated` (wired to the
complete-stage view-navigation buttons) is mutually exclusive: it hides
every segmentation layer and the flight-path overlay, shows only the
heatmap layer (when it and the map exist), and leaves the mask
untouched; but the older `switchToHeatmapView`, also reachable in the
complete stage, hides only the segmentation layers, so a visible flight
path stays visible. -/
theorem c2_heatmapViewUpdated_exclusive (s : ViewState) :
    (∀ l ∈ (switchToHeatmapViewUpdated s).animatedLayers, l.2 = false) ∧
    (∀ b, (switchToHeatmapViewUpdated s).flightPathOverlay = some b →
      b = false) ∧
    (switchToHeatmapViewUpdated s).maskOverlay = s.maskOverlay ∧
    (switchToHeatmapViewUpdated s).currentView = ViewKind.heatmap ∧
    (s.heatmapOverlay.isSome → s.mapInstance = true →
      (switchToHeatmapViewUpdated s).heatmapOverlay = some true) := by
  cases hfp : s.flightPathOverlay <;> cases hhm : s.heatmapOverlay <;>
    cases hmi : s.mapInstance <;>
      simp [switchToHeatmapViewUpdated, setAllSeg, hfp, hhm, hmi]

/-- C2 witness: the exclusive switch at a concrete complete-stage state
with the heatmap present. -/
theorem c2_witness :
    (∀ l ∈ (switchToHeatmapViewUpdated c2State).animatedLayers, l.2 = false) ∧
    (switchToHeatmapViewUpdated c2State).heatmapOverlay = some true ∧
    (∀ b, (switchToHeatmapViewUpdated c2State).flightPathOverlay = some b →
      b = false) :=
  ⟨(c2_heatmapViewUpdated_exclusive c2State).1,
   (c2_heatmapViewUpdated_exclusive c2State).2.2.2.2 rfl rfl,
   (c2_heatmapViewUpdated_exclusive c2State).2.1⟩

/-- C10: `stopAnimation` cancels every pending timer, clears the active
flag, and sets the opacity of every tracked animated layer — including
layers whose fade-in had not started — to 0.7, so stopping is itself a
visible mutation of every tracked layer. -/
theorem c10_stop_sets_opacity (s : AnimState) (name : String)
    (h : name ∈ s.layers) :
    (stopAnimation s).pending = [] ∧ (stopAnimation s).active = false ∧
    (stopAnimation s).opacity name = 7/10 := by
  refine ⟨rfl, rfl, ?_⟩
  simp [stopAnimation, h]

/-- C10 witness: stopping a run whose second layer has not started
fading still sets that layer to 0.7. -/
theorem c10_witness :
    "roads" ∈ c10State.layers ∧
    ((stopAnimation c10State).pending = [] ∧
     (stopAnimation c10State).active = false ∧
     (stopAnimation c10State).opacity "roads" = 7/10) :=
  ⟨by decide, c10_stop_sets_opacity c10State "roads" (by decide)⟩

/-- Helper for C7: a timer callback run against an inactive animation
state mutates nothing — both `fadeIn` and `animateNextLayer` re-check
the active flag at entry and return. -/
theorem runEvent_inactive (s : AnimState) (e : AnimEvent)
    (h : s.active = false) : runEvent s e = s := by
  cases e with
  | fade idx op => simp [runEvent, fadeTick, h]
  | next idx => simp [runEvent, h]

/-- C7: once `stopAnimation` has returned, the pending-timer list is
empty and no sequence of timer callbacks of the run — including
callbacks that had already been dequeued before the stop — changes the
state at all; in particular every layer opacity stays at its value as of
stop time. -/
theorem c7_stop_halts (s : AnimState) (evs : List AnimEvent) :
    (stopAnimation s).pending = [] ∧
    runEvents (stopAnimation s) evs = stopAnimation s := by
  refine ⟨rfl, ?_⟩
  have key : ∀ t : AnimState, t.active = false → runEvents t evs = t := by
    induction evs with
    | nil => intro t _; rfl
    | cons e tl ih =>
      intro t ht
      have h1 : runEvents t (e :: tl) = runEvents (runEvent t e) tl := rfl
      rw [h1, runEvent_inactive t e ht]
      exact ih t ht
  exact key _ rfl

/-- C8: for a bounding box contained in the visible extent,
`createMaskOverlay` produces exactly four rectangles — a full-width
north strip, a full-width south strip, and west/east strips limited to
the box's latitude band — each filled at the same fixed translucency
(0.5) and non-interactive; their union covers exactly the visible area
minus the bounding box (rendered rectangles are closed regions, so
"minus the bounding box" is minus its interior), and their interiors are
pairwise disjoint, so they tile it. -/
theorem c8_mask_tiles (bb vis : Bounds)
    (h1 : vis.south ≤ bb.south) (h2 : bb.north ≤ vis.north)
    (h3 : vis.west ≤ bb.west) (h4 : bb.east ≤ vis.east)
    (h5 : bb.south < bb.north) (h6 : bb.west < bb.east) :
    (createMaskOverlay bb vis).length = 4 ∧
    (∀ r ∈ createMaskOverlay bb vis, r.fillOpacity = 1/2 ∧
      r.clickable = false) ∧
    (∀ p : ℚ × ℚ, (inClosed p vis ∧ ¬ inInterior p bb) ↔
      ∃ r ∈ createMaskOverlay bb vis, inClosed p r.bounds) ∧
    List.Pairwise
      (fun r r' => ∀ p : ℚ × ℚ,
        ¬ (inInterior p r.bounds ∧ inInterior p r'.bounds))
      (createMaskOverlay bb vis) := by
  refine ⟨rfl, ?_, ?_, ?_⟩
  · intro r hr
    simp only [createMaskOverlay, maskRect, List.mem_cons,
      List.not_mem_nil, or_false] at hr
    rcases hr with rfl | rfl | rfl | rfl <;> exact ⟨rfl, rfl⟩
  · intro p
    simp only [createMaskOverlay, maskRect, List.mem_cons,
      List.not_mem_nil, or_false, exists_eq_or_imp, exists_eq_left,
      inClosed, inInterior, not_and, not_lt]
    constructor
    · rintro ⟨⟨hs, hn, hw, he⟩, hni⟩
      rcases le_or_lt bb.north p.1 with hc | hc
      · exact Or.inl ⟨hc, hn, hw, he⟩
      rcases le_or_lt p.1 bb.south with hc2 | hc2
      · exact Or.inr (Or.inl ⟨hs, hc2, hw, he⟩)
      rcases le_or_lt p.2 bb.west with hc3 | hc3
      · exact Or.inr (Or.inr (Or.inl ⟨hc2.le, hc.le, hw, hc3⟩))
      have hc4 : bb.east ≤ p.2 := hni hc2 hc hc3
      exact Or.inr (Or.inr (Or.inr ⟨hc2.le, hc.le, hc4, he⟩))
    · rintro (⟨ha, hb', hc', hd⟩ | ⟨ha, hb', hc', hd⟩ |
        ⟨ha, hb', hc', hd⟩ | ⟨ha, hb', hc', hd⟩)
      · exact ⟨⟨by linarith, hb', hc', hd⟩, fun _ hlt _ => by linarith⟩
      · exact ⟨⟨ha, by linarith, hc', hd⟩, fun hlt _ _ => by linarith⟩
      · exact ⟨⟨by linarith, by linarith, by linarith, by linarith⟩,
          fun _ _ hlt => by linarith⟩
      · exact ⟨⟨by linarith, by linarith, by linarith, by linarith⟩,
          fun _ _ _ => by linarith⟩
  · simp only [createMaskOverlay]
    refine List.Pairwise.cons ?_ (List.Pairwise.cons ?_
      (List.Pairwise.cons ?_ (List.Pairwise.cons ?_ List.Pairwise.nil)))
    · intro r' hr' p hp
      simp only [List.mem_cons, List.not_mem_nil, or_false] at hr'
      rcases hr' with rfl | rfl | rfl <;>
        · simp only [inInterior, maskRect] at hp
          obtain ⟨⟨a1, a2, a3, a4⟩, b1, b2, b3, b4⟩ := hp
          linarith
    · intro r' hr' p hp
      simp only [List.mem_cons, List.not_mem_nil, or_false] at hr'
      rcases hr' with rfl | rfl <;>
        · simp only [inInterior, maskRect] at hp
          obtain ⟨⟨a1, a2, a3, a4⟩, b1, b2, b3, b4⟩ := hp
          linarith
    · intro r' hr' p hp
      simp only [List.mem_cons, List.not_mem_nil, or_false] at hr'
      subst hr'
      simp only [inInterior, maskRect] at hp
      obtain ⟨⟨a1, a2, a3, a4⟩, b1, b2, b3, b4⟩ := hp
      linarith
    · intro r' hr'
      cases hr'

/-- C8 witness: the tiling at a concrete bounding box strictly inside a
concrete visible extent. -/
theorem c8_witness :
    ((⟨10, -10, 10, -10⟩ : Bounds).south ≤ (⟨5, -5, 5, -5⟩ : Bounds).south ∧
     (⟨5, -5, 5, -5⟩ : Bounds).north ≤ (⟨10, -10, 10, -10⟩ : Bounds).north ∧
     (⟨5, -5, 5, -5⟩ : Bounds).south < (⟨5, -5, 5, -5⟩ : Bounds).north) ∧
    (createMaskOverlay ⟨5, -5, 5, -5⟩ ⟨10, -10, 10, -10⟩).length = 4 ∧
    (∀ r ∈ createMaskOverlay ⟨5, -5, 5, -5⟩ ⟨10, -10, 10, -10⟩,
      r.fillOpacity = 1/2 ∧ r.clickable = false) ∧
    (∀ p : ℚ × ℚ,
      (inClosed p ⟨10, -10, 10, -10⟩ ∧ ¬ inInterior p ⟨5, -5, 5, -5⟩) ↔
        ∃ r ∈ createMaskOverlay ⟨5, -5, 5, -5⟩ ⟨10, -10, 10, -10⟩,
          inClosed p r.bounds) := by
  have h := c8_mask_tiles ⟨5, -5, 5, -5⟩ ⟨10, -10, 10, -10⟩
    (by norm_num) (by norm_num) (by norm_num) (by norm_num)
    (by norm_num) (by norm_num)
  exact ⟨⟨by norm_num, by norm_num, by norm_num⟩, h.1, h.2.1, h.2.2.1⟩

/-! ### Geometry lemmas -/

/-- `Math.atan2` is non-negative on the closed upper-right quadrant. -/
theorem jsAtan2_nonneg (y x : ℝ) (hy : 0 ≤ y) (hx : 0 ≤ x) :
    0 ≤ jsAtan2 y x := by
  unfold jsAtan2
  split_ifs with hx1 hx2 hy1 hy2 hy3
  · have h := Real.arctan_strictMono.monotone (div_nonneg hy hx1.le)
    rwa [Real.arctan_zero] at h
  all_goals linarith [Real.pi_pos]

/-- On the domain produced by `calculateArea` with a haversine value in
`[0, 1)`, `Math.atan2(sqrt a, sqrt (1 - a))` is `arcsin (sqrt a)`. -/
theorem jsAtan2_sqrt_eq_arcsin (a : ℝ) (h0 : 0 ≤ a) (h1 : a < 1) :
    jsAtan2 (Real.sqrt a) (Real.sqrt (1 - a)) = Real.arcsin (Real.sqrt a) := by
  have hx : 0 < Real.sqrt (1 - a) := Real.sqrt_pos.mpr (by linarith)
  have hsle : Real.sqrt a ≤ 1 := by
    rw [show (1 : ℝ) = Real.sqrt 1 from Real.sqrt_one.symm]
    exact Real.sqrt_le_sqrt h1.le
  have hslt : Real.sqrt a < 1 := by
    rw [show (1 : ℝ) = Real.sqrt 1 from Real.sqrt_one.symm]
    exact Real.sqrt_lt_sqrt h0 h1
  have hθ0 : 0 ≤ Real.arcsin (Real.sqrt a) :=
    Real.arcsin_nonneg.mpr (Real.sqrt_nonneg a)
  have hθlt : Real.arcsin (Real.sqrt a) < Real.pi / 2 :=
    Real.arcsin_lt_pi_div_two.mpr hslt
  have hsin : Real.sin (Real.arcsin (Real.sqrt a)) = Real.sqrt a :=
    Real.sin_arcsin (by linarith [Real.sqrt_nonneg a]) hsle
  have hcos : Real.cos (Real.arcsin (Real.sqrt a)) = Real.sqrt (1 - a) := by
    rw [Real.cos_arcsin, Real.sq_sqrt h0]
  have htan : Real.tan (Real.arcsin (Real.sqrt a)) =
      Real.sqrt a / Real.sqrt (1 - a) := by
    rw [Real.tan_eq_sin_div_cos, hsin, hcos]
  unfold jsAtan2
  rw [if_pos hx, ← htan]
  exact Real.arctan_tan (by linarith [Real.pi_pos]) hθlt

/-- `arcsin` dominates the identity on `[0, 1]`. -/
theorem self_le_arcsin (x : ℝ) (h0 : 0 ≤ x) (h1 : x ≤ 1) :
    x ≤ Real.arcsin x := by
  have h := Real.sin_le (Real.arcsin_nonneg.mpr h0)
  rwa [Real.sin_arcsin (by linarith) h1] at h

/-- C5 (amended): for every valid bounding box — `north > south`,
`east > west`, latitudes within `[-90, 90]` (outside that range the
JavaScript computation produces NaN and the real-valued model is not
faithful) — `calculateArea` returns a non-negative value.  Monotonicity
in box size does not hold: see the counterexample, where enlarging the
box northwards strictly decreases the returned value. -/
theorem c5_area_nonneg (b : BoundingBox) (h1 : -90 ≤ b.south)
    (h2 : b.south < b.north) (h3 : b.north ≤ 90) (h4 : b.west < b.east) :
    0 ≤ calculateArea b := by
  have hc : 0 ≤ haversineC b := by
    have h := jsAtan2_nonneg (Real.sqrt (haversineA b))
      (Real.sqrt (1 - haversineA b)) (Real.sqrt_nonneg _) (Real.sqrt_nonneg _)
    unfold haversineC
    linarith
  unfold calculateArea
  exact mul_nonneg (mul_nonneg (mul_nonneg (by norm_num) hc)
    (abs_nonneg _)) (by norm_num)

/-- C5 witness: non-negativity at the concrete default Princeton box. -/
theorem c5_witness :
    0 ≤ calculateArea
      { north := 40.3622, south := 40.3158, east := -74.6252, west := -74.6958 } :=
  c5_area_nonneg
    { north := 40.3622, south := 40.3158, east := -74.6252, west := -74.6958 }
    (by norm_num) (by norm_num) (by norm_num) (by norm_num)

/-- C5 counterexample: `c5BoxB` enlarges `c5BoxA` in the north direction
(all other edges equal), yet `calculateArea` strictly decreases: the
formula multiplies the corner-to-corner haversine angle by the
longitude-fraction width, and moving the north-west corner towards the
pole shortens the diagonal to the far south-east corner. -/
theorem c5_counterexample :
    c5BoxA.south = c5BoxB.south ∧ c5BoxA.east = c5BoxB.east ∧
    c5BoxA.west = c5BoxB.west ∧ c5BoxA.north < c5BoxB.north ∧
    calculateArea c5BoxB < calculateArea c5BoxA := by
  refine ⟨rfl, rfl, rfl, by norm_num [c5BoxA, c5BoxB], ?_⟩
  have hA : haversineA c5BoxA = 3 / 4 := by
    have e1 : deltaLat c5BoxA / 2 = -(Real.pi / 6) := by
      simp only [deltaLat, c5BoxA]; ring
    have e2 : lat1 c5BoxA = Real.pi / 3 := by
      simp only [lat1, c5BoxA]; ring
    have e3 : lat2 c5BoxA = 0 := by
      simp only [lat2, c5BoxA]; ring
    have e4 : deltaLon c5BoxA / 2 = Real.pi / 2 := by
      simp only [deltaLon, c5BoxA]; ring
    unfold haversineA
    rw [e1, e2, e3, e4, Real.sin_neg, Real.sin_pi_div_six,
      Real.cos_pi_div_three, Real.cos_zero, Real.sin_pi_div_two]
    norm_num
  have hB : haversineA c5BoxB = 1 / 2 := by
    have e1 : deltaLat c5BoxB / 2 = -(Real.pi / 4) := by
      simp only [deltaLat, c5BoxB]; ring
    have e2 : lat1 c5BoxB = Real.pi / 2 := by
      simp only [lat1, c5BoxB]; ring
    have e3 : lat2 c5BoxB = 0 := by
      simp only [lat2, c5BoxB]; ring
    have e4 : deltaLon c5BoxB / 2 = Real.pi / 2 := by
      simp only [deltaLon, c5BoxB]; ring
    unfold haversineA
    rw [e1, e2, e3, e4, Real.sin_neg, Real.sin_pi_div_four,
      Real.cos_pi_div_two, Real.cos_zero, Real.sin_pi_div_two]
    have h2 : Real.sqrt 2 ^ 2 = 2 := Real.sq_sqrt (by norm_num)
    nlinarith [h2]
  have hCA : haversineC c5BoxA = 2 * (Real.pi / 3) := by
    unfold haversineC
    rw [hA, jsAtan2_sqrt_eq_arcsin (3 / 4) (by norm_num) (by norm_num)]
    have hs : Real.sqrt (3 / 4) = Real.sin (Real.pi / 3) := by
      rw [Real.sin_pi_div_three,
        show (3 : ℝ) / 4 = (Real.sqrt 3 / 2) ^ 2 by
          rw [div_pow, Real.sq_sqrt] <;> norm_num]
      exact Real.sqrt_sq (by positivity)
    rw [hs, Real.arcsin_sin (by linarith [Real.pi_pos])
      (by linarith [Real.pi_pos])]
  have hCB : haversineC c5BoxB = 2 * (Real.pi / 4) := by
    unfold haversineC
    rw [hB, jsAtan2_sqrt_eq_arcsin (1 / 2) (by norm_num) (by norm_num)]
    have hs : Real.sqrt (1 / 2) = Real.sin (Real.pi / 4) := by
      rw [Real.sin_pi_div_four,
        show (1 : ℝ) / 2 = (Real.sqrt 2 / 2) ^ 2 by
          rw [div_pow, Real.sq_sqrt] <;> norm_num]
      exact Real.sqrt_sq (by positivity)
    rw [hs, Real.arcsin_sin (by linarith [Real.pi_pos])
      (by linarith [Real.pi_pos])]
  unfold calculateArea
  rw [hCA, hCB]
  simp only [c5BoxA, c5BoxB]
  rw [show |((180 : ℝ) - 0) / 360| = 1 / 2 by
    rw [abs_of_nonneg] <;> norm_num]
  nlinarith [Real.pi_pos]

set_option maxHeartbeats 1600000 in
/-- Helper for C6: a lower bound for `calculateArea` on any box whose
latitude span is `10/111` degrees, whose longitude span is `10/(111 c)`
degrees for a latitude-cosine value `c` in `[0.75, 1]`, and whose edge
latitudes have cosines at least `0.7515`.  Stated over abstract atoms so
the arithmetic stays cheap; C6 instantiates it at the concrete box. -/
theorem calculateArea_centerBox_lower (b : BoundingBox) (c : ℝ)
    (hdLat : deltaLat b / 2 = -(Real.pi / 3996))
    (hdLon : deltaLon b / 2 = Real.pi / (3996 * c))
    (hew : b.east - b.west = 10 / (111 * c))
    (hc_pos : 0 < c) (hc_le1 : c ≤ 1) (hc_lo : (0.75 : ℝ) ≤ c)
    (hc1 : (0.7515 : ℝ) ≤ Real.cos (lat1 b))
    (hc2 : (0.7515 : ℝ) ≤ Real.cos (lat2 b)) :
    110 < calculateArea b := by
  have hπl : (3.141592 : ℝ) < Real.pi := Real.pi_gt_d6
  have hπu : Real.pi < 3.141593 := Real.pi_lt_d6
  have hπ0 : (0 : ℝ) < Real.pi := by linarith
  have hk : (0.5647 : ℝ) ≤ Real.cos (lat1 b) * Real.cos (lat2 b) := by
    nlinarith [hc1, hc2]
  have hck_le1 : Real.cos (lat1 b) * Real.cos (lat2 b) ≤ 1 :=
    mul_le_one₀ (Real.cos_le_one _) (by linarith) (Real.cos_le_one _)
  have hu_lo : (0.000786 : ℝ) < Real.pi / 3996 := by linarith
  have hu_hi : Real.pi / 3996 < 0.000787 := by linarith
  have hu_pos : (0 : ℝ) < Real.pi / 3996 := by linarith
  have hu_le1 : Real.pi / 3996 ≤ 1 := by linarith
  have hsinu : (0.0007859 : ℝ) ≤ Real.sin (Real.pi / 3996) := by
    have h := Real.sin_gt_sub_cube hu_pos hu_le1
    have hu2 : Real.pi / 3996 * (Real.pi / 3996) < 0.000787 * 0.000787 := by
      nlinarith [hu_pos, hu_hi]
    have hu3 : Real.pi / 3996 * (Real.pi / 3996) * (Real.pi / 3996) <
        0.000787 * 0.000787 * 0.000787 := by
      nlinarith [hu2, hu_pos, hu_hi]
    nlinarith [h, hu3, hu_lo]
  have hsinu_pos : 0 < Real.sin (Real.pi / 3996) := by linarith
  have hsinu_le : Real.sin (Real.pi / 3996) ≤ Real.pi / 3996 :=
    Real.sin_le hu_pos.le
  have hden_pos : (0 : ℝ) < 3996 * c := by linarith
  have hV_pos : 0 < Real.pi / (3996 * c) := div_pos hπ0 hden_pos
  have hVmul : Real.pi / (3996 * c) * (3996 * c) = Real.pi :=
    div_mul_cancel₀ _ (ne_of_gt hden_pos)
  have hv_hi : Real.pi / (3996 * c) ≤ 0.00105 := by
    nlinarith [hVmul, hc_lo, hV_pos, hπu]
  have hv_ge_u : Real.pi / 3996 ≤ Real.pi / (3996 * c) := by
    nlinarith [hVmul, hc_le1, hV_pos, hc_pos]
  have hu_mem : Real.pi / 3996 ∈ Set.Icc (-(Real.pi / 2)) (Real.pi / 2) :=
    ⟨by linarith, by linarith⟩
  have hv_mem : Real.pi / (3996 * c) ∈
      Set.Icc (-(Real.pi / 2)) (Real.pi / 2) :=
    ⟨by linarith, by linarith⟩
  have hsinv_ge : Real.sin (Real.pi / 3996) ≤
      Real.sin (Real.pi / (3996 * c)) :=
    Real.strictMonoOn_sin.monotoneOn hu_mem hv_mem hv_ge_u
  have hsinv_pos : 0 < Real.sin (Real.pi / (3996 * c)) := by linarith
  have hsinv_le : Real.sin (Real.pi / (3996 * c)) ≤ 0.00105 :=
    le_trans (Real.sin_le hV_pos.le) hv_hi
  have ha_eq : haversineA b =
      Real.sin (Real.pi / 3996) * Real.sin (Real.pi / 3996) +
      Real.cos (lat1 b) * Real.cos (lat2 b) *
        Real.sin (Real.pi / (3996 * c)) * Real.sin (Real.pi / (3996 * c)) := by
    unfold haversineA
    rw [hdLat, hdLon, Real.sin_neg]
    ring
  have hsinu_sq : (0.000000617 : ℝ) ≤
      Real.sin (Real.pi / 3996) * Real.sin (Real.pi / 3996) := by
    nlinarith [hsinu]
  have hsinv_sq : (0.000000617 : ℝ) ≤
      Real.sin (Real.pi / (3996 * c)) * Real.sin (Real.pi / (3996 * c)) := by
    nlinarith [hsinv_ge, hsinu]
  have ha_lo : (0.00000096 : ℝ) ≤ haversineA b := by
    rw [ha_eq]
    nlinarith [hsinu_sq, hsinv_sq, hk, hsinv_pos, hc1, hc2]
  have hsu787 : Real.sin (Real.pi / 3996) ≤ 0.000787 :=
    le_trans hsinu_le hu_hi.le
  have ha_hi : haversineA b ≤ 0.000002 := by
    rw [ha_eq]
    nlinarith [hsu787, hsinu_pos, hsinv_le, hsinv_pos, hck_le1,
      mul_pos hsinv_pos hsinv_pos]
  have ha_lt1 : haversineA b < 1 := by linarith
  have ha_nn : 0 ≤ haversineA b := by linarith
  have hC : haversineC b = 2 * Real.arcsin (Real.sqrt (haversineA b)) := by
    unfold haversineC
    rw [jsAtan2_sqrt_eq_arcsin _ ha_nn ha_lt1]
  have hsqrt_le1 : Real.sqrt (haversineA b) ≤ 1 := by
    rw [show (1 : ℝ) = Real.sqrt 1 from Real.sqrt_one.symm]
    exact Real.sqrt_le_sqrt ha_lt1.le
  have hsqrt_lo : (0.00097 : ℝ) ≤ Real.sqrt (haversineA b) :=
    (Real.le_sqrt (by norm_num) ha_nn).mpr (by nlinarith [ha_lo])
  have hC_lo : (0.00194 : ℝ) ≤ haversineC b := by
    rw [hC]
    have h := self_le_arcsin (Real.sqrt (haversineA b))
      (Real.sqrt_nonneg _) hsqrt_le1
    linarith
  have hW_pos : (0 : ℝ) < 10 / (111 * c) / 360 := by
    apply div_pos _ (by norm_num)
    exact div_pos (by norm_num) (by linarith)
  have habs : |(b.east - b.west) / 360| = 10 / (111 * c) / 360 := by
    rw [hew]
    exact abs_of_pos hW_pos
  have hWc : 10 / (111 * c) / 360 * c = 10 / 39960 := by
    have hc0 : c ≠ 0 := ne_of_gt hc_pos
    field_simp
    ring
  have hW_ge : (10 / 39960 : ℝ) ≤ 10 / (111 * c) / 360 := by
    nlinarith [hWc, hW_pos, hc_le1, hc_pos]
  have hCW : (0.00194 : ℝ) * (10 / 39960) ≤
      haversineC b * (10 / (111 * c) / 360) :=
    mul_le_mul hC_lo hW_ge (by norm_num) (le_trans (by norm_num) hC_lo)
  unfold calculateArea
  rw [habs]
  nlinarith [hCW]

set_option maxHeartbeats 1000000 in
/-- C6 (code bug): the 10 km × 10 km bounding box built around the URL
centre point (40.34, -74.66) does not have a `calculateArea` value of
approximately 100 km² within ±10%: the value exceeds 110 km² (it is
about 186 km², because the formula multiplies the corner-to-corner
haversine distance by the equatorial — not latitude-corrected — width
fraction of the globe). -/
theorem c6_area_exceeds_tolerance :
    110 < calculateArea (centerBoundingBox 40.34 (-74.66)) := by
  have hπl : (3.141592 : ℝ) < Real.pi := Real.pi_gt_d6
  have hπu : Real.pi < 3.141593 := Real.pi_lt_d6
  have hπ0 : (0 : ℝ) < Real.pi := by linarith
  have hφ_hi : (40.34 : ℝ) * Real.pi / 180 < 0.70407 := by linarith
  have hφ_pos : (0 : ℝ) < 40.34 * Real.pi / 180 := by linarith
  have hφ_lt : (40.34 : ℝ) * Real.pi / 180 < Real.pi / 2 := by linarith
  have hcosφ_pos : 0 < Real.cos (40.34 * Real.pi / 180) :=
    Real.cos_pos_of_mem_Ioo ⟨by linarith, hφ_lt⟩
  have hcosφ_le1 : Real.cos (40.34 * Real.pi / 180) ≤ 1 := Real.cos_le_one _
  have hcosφ_lo : (0.75 : ℝ) ≤ Real.cos (40.34 * Real.pi / 180) := by
    have h : 1 - (40.34 * Real.pi / 180) ^ 2 / 2 ≤
        Real.cos (40.34 * Real.pi / 180) := Real.one_sub_sq_div_two_le_cos
    nlinarith [h, hφ_pos, hφ_hi]
  apply calculateArea_centerBox_lower (centerBoundingBox 40.34 (-74.66))
    (Real.cos (40.34 * Real.pi / 180))
  · show ((40.34 - 10 / (2 * 111)) - (40.34 + 10 / (2 * 111))) *
        Real.pi / 180 / 2 = -(Real.pi / 3996)
    ring
  · show ((-74.66 + 10 / (2 * 111 * Real.cos (40.34 * Real.pi / 180))) -
        (-74.66 - 10 / (2 * 111 * Real.cos (40.34 * Real.pi / 180)))) *
        Real.pi / 180 / 2 =
        Real.pi / (3996 * Real.cos (40.34 * Real.pi / 180))
    have hc0 : Real.cos (40.34 * Real.pi / 180) ≠ 0 := ne_of_gt hcosφ_pos
    field_simp
    ring
  · show (-74.66 + 10 / (2 * 111 * Real.cos (40.34 * Real.pi / 180))) -
        (-74.66 - 10 / (2 * 111 * Real.cos (40.34 * Real.pi / 180))) =
        10 / (111 * Real.cos (40.34 * Real.pi / 180))
    have hc0 : Real.cos (40.34 * Real.pi / 180) ≠ 0 := ne_of_gt hcosφ_pos
    field_simp
    ring
  · exact hcosφ_pos
  · exact hcosφ_le1
  · exact hcosφ_lo
  · have hl1 : lat1 (centerBoundingBox 40.34 (-74.66)) =
        (40.34 + 10 / (2 * 111)) * Real.pi / 180 := rfl
    have hl1_hi : lat1 (centerBoundingBox 40.34 (-74.66)) < 0.70486 := by
      rw [hl1]; linarith
    have hl1_pos : 0 < lat1 (centerBoundingBox 40.34 (-74.66)) := by
      rw [hl1]; linarith
    have h : 1 - lat1 (centerBoundingBox 40.34 (-74.66)) ^ 2 / 2 ≤
        Real.cos (lat1 (centerBoundingBox 40.34 (-74.66))) :=
      Real.one_sub_sq_div_two_le_cos
    nlinarith [h, hl1_hi, hl1_pos]
  · have hl2 : lat2 (centerBoundingBox 40.34 (-74.66)) =
        (40.34 - 10 / (2 * 111)) * Real.pi / 180 := rfl
    have hl2_hi : lat2 (centerBoundingBox 40.34 (-74.66)) < 0.70407 := by
      rw [hl2]; linarith
    have hl2_pos : 0 < lat2 (centerBoundingBox 40.34 (-74.66)) := by
      rw [hl2]; linarith
    have h : 1 - lat2 (centerBoundingBox 40.34 (-74.66)) ^ 2 / 2 ≤
        Real.cos (lat2 (centerBoundingBox 40.34 (-74.66))) :=
      Real.one_sub_sq_div_two_le_cos
    nlinarith [h, hl2_hi, hl2_pos]


end Sartech
